import Mathlib

/-!
Verification development for the skypies/adsb repository: a shallow
embedding of the message model (adsb.go, composite.go, signature.go),
the flat-buffer aggregation engine (msgbuffer), and the track-buffer
aggregation engine (trackbuffer), together with theorems settling the
frozen claims about the specification.

Conventions of the embedding:
* Go `time.Time` instants and `time.Duration` values are embedded as `Int`
  (nanoseconds).  `time.Since(t)` evaluated at wall-clock instant `now`
  is `now - t`; every function that reads the wall clock takes an explicit
  `now : Int` argument.
* Go `float64` coordinate values (geo.Latlong) are embedded as `Int` bit
  patterns: none of the verified code performs arithmetic on them, it only
  stores, copies and compares them.
* Go maps (`map[adsb.IcaoId]*ADSBSender`, `map[adsb.IcaoId]*Track`) are
  embedded as association lists; map iteration in the embedded functions is
  only used for order-independent operations (filtering / deletion).
* The channel / callback handoff of a flush is embedded by returning the
  list of batches delivered during the call alongside the new state.
-/

namespace Adsb

/-- Embeds go nanosecond duration `time.Second`. -/
def second : Int := 1000000000

/-- Embeds geo.Latlong (two float64 fields, represented by bit patterns;
the embedded code never does arithmetic on them). -/
structure Latlong where
  lat : Int
  long : Int
  deriving DecidableEq, Repr

/-- Embeds adsb.Msg (adsb.go): the SBS1-shaped partial message.  The
private presence flags (hasCallsign, hasSquawk, hasAltitude,
hasGroundSpeed, hasTrack, hasVerticalRate, hasPosition) are the fields
written by Msg.FromSBS1 in composite.go; the HasX() accessors below follow
the pattern of the HasPosition accessor in adsb.go. -/
structure Msg where
  type : String
  subType : Int
  icao24 : String
  generatedTimestampUTC : Int
  loggedTimestampUTC : Int
  callsign : String
  altitude : Int
  groundSpeed : Int
  track : Int
  position : Latlong
  verticalRate : Int
  squawk : String
  alertSquawkChange : Bool
  emergency : Bool
  spi : Bool
  isOnGround : Bool
  numStations : Int
  hasPosition : Bool
  hasCallsign : Bool
  hasSquawk : Bool
  hasAltitude : Bool
  hasGroundSpeed : Bool
  hasTrack : Bool
  hasVerticalRate : Bool
  deriving DecidableEq, Repr

/-- Embeds adsb.CompositeMsg (composite.go): a Msg plus the receiver name. -/
structure CompositeMsg where
  msg : Msg
  receiverName : String
  deriving DecidableEq, Repr

/-- Embeds adsb.Signature (signature.go). -/
structure Signature where
  pos : Latlong
  icao24 : String
  deriving DecidableEq, Repr

/-- Embeds CompositeMsg.GetSignature (signature.go). -/
def CompositeMsg.GetSignature (m : CompositeMsg) : Signature :=
  { pos := m.msg.position, icao24 := m.msg.icao24 }

end Adsb

namespace Msgbuffer

open Adsb

/-- Embeds msgbuffer.ADSBSender: the per-sender cache of sparse fields. -/
structure ADSBSender where
  lastSeen : Int
  lastGroundSpeed : Int
  lastVerticalSpeed : Int
  lastTrack : Int
  lastCallsign : String
  lastSquawk : String
  deriving DecidableEq, Repr

/-- Embeds the composite literal `ADSBSender{LastSeen: time.Now().UTC()}`
used at admission in MsgBuffer.Add: only LastSeen is set, every other
field is its Go zero value. -/
def freshSender (now : Int) : ADSBSender :=
  { lastSeen := now, lastGroundSpeed := 0, lastVerticalSpeed := 0,
    lastTrack := 0, lastCallsign := "", lastSquawk := "" }

/-- Embeds msgbuffer.MsgBuffer.  The FlushChannel is embedded by having
flushing functions return the delivered batches. -/
structure MsgBuffer where
  minPublishInterval : Int
  maxMessageAge : Int
  maxQuietTime : Int
  senders : List (String × ADSBSender)
  messages : List CompositeMsg
  lastFlush : Int
  lastAgeOut : Int
  deriving DecidableEq, Repr

/-- Embeds NewMsgBuffer (with zeroed clock fields). -/
def NewMsgBuffer : MsgBuffer :=
  { minPublishInterval := 5 * second, maxMessageAge := 30 * second,
    maxQuietTime := 360 * second, senders := [], messages := [],
    lastFlush := 0, lastAgeOut := 0 }

/-- Association-list lookup, embedding a Go map read `m[k]`. -/
def lookupSender : List (String × ADSBSender) → String → Option ADSBSender
  | [], _ => none
  | (k, v) :: rest, key => if k = key then some v else lookupSender rest key

/-- Association-list store, embedding a Go map write `m[k] = v`. -/
def setSender : List (String × ADSBSender) → String → ADSBSender → List (String × ADSBSender)
  | [], key, v => [(key, v)]
  | (k, v') :: rest, key, v =>
      if k = key then (key, v) :: rest else (k, v') :: setSender rest key v

/-- Embeds ADSBSender.updateFromMsg: refresh LastSeen, then cache every
optional field the message explicitly carries (blank explicit callsigns
become the magic sentinel), then the dead legacy subtype dispatch guarded
by the disabled type string "MSG_foooo". -/
def updateFromMsg (s : ADSBSender) (m : Msg) (now : Int) : ADSBSender :=
  let s1 := { s with lastSeen := now }
  let s2 := if m.hasCallsign then
              if m.callsign.length > 0 then { s1 with lastCallsign := m.callsign }
              else { s1 with lastCallsign := "_._._._." }
            else s1
  let s3 := if m.hasSquawk then { s2 with lastSquawk := m.squawk } else s2
  let s4 := if m.hasGroundSpeed then { s3 with lastGroundSpeed := m.groundSpeed } else s3
  let s5 := if m.hasTrack then { s4 with lastTrack := m.track } else s4
  let s6 := if m.hasVerticalRate then { s5 with lastVerticalSpeed := m.verticalRate } else s5
  if m.type = "MSG_foooo" then
    if m.subType = 1 then
      let s7 := if m.callsign = "" then { s6 with lastCallsign := "_._._._." } else s6
      if m.callsign ≠ "" then { s7 with lastCallsign := m.callsign } else s7
    else if m.subType = 2 then
      let s7 := if m.hasGroundSpeed then { s6 with lastGroundSpeed := m.groundSpeed } else s6
      if m.hasTrack then { s7 with lastTrack := m.track } else s7
    else if m.subType = 4 then
      let s7 := if m.hasGroundSpeed then { s6 with lastGroundSpeed := m.groundSpeed } else s6
      let s8 := if m.hasVerticalRate then { s7 with lastVerticalSpeed := m.verticalRate } else s7
      if m.hasTrack then { s8 with lastTrack := m.track } else s8
    else if m.subType = 6 then
      if m.squawk ≠ "" then { s6 with lastSquawk := m.squawk } else s6
    else s6
  else s6

/-- Embeds ADSBSender.maybeCreateComposite: emit iff the message carries
position; clone the message and backfill zero/empty fields from the cache. -/
def maybeCreateComposite (s : ADSBSender) (m : Msg) : Option CompositeMsg :=
  if !m.hasPosition then
    none
  else
    let m1 := if m.groundSpeed = 0 then { m with groundSpeed := s.lastGroundSpeed } else m
    let m2 := if m1.verticalRate = 0 then { m1 with verticalRate := s.lastVerticalSpeed } else m1
    let m3 := if m2.track = 0 then { m2 with track := s.lastTrack } else m2
    let m4 := if m3.callsign = "" then { m3 with callsign := s.lastCallsign } else m3
    let m5 := if m4.squawk = "" then { m4 with squawk := s.lastSquawk } else m4
    some { msg := m5, receiverName := "" }

/-- Embeds MsgBuffer.ageOutQuietSenders: at most once per second, delete
every sender quiet for at least MaxQuietTime; returns the removal count. -/
def ageOutQuietSenders (mb : MsgBuffer) (now : Int) : MsgBuffer × Int :=
  if now - mb.lastAgeOut < second then (mb, 0)
  else
    let keep := mb.senders.filter (fun p => !(now - p.2.lastSeen ≥ mb.maxQuietTime))
    ({ mb with lastAgeOut := now, senders := keep },
     (mb.senders.length : Int) - (keep.length : Int))

/-- Embeds MsgBuffer.flush: send the accumulated messages down the
channel, reset the accumulator, and record the flush time. -/
def flush (mb : MsgBuffer) (now : Int) : MsgBuffer × List (List CompositeMsg) :=
  ({ mb with messages := [], lastFlush := now }, [mb.messages])

/-- Embeds the sender-admission / cache-update / emission block of
MsgBuffer.Add (the body between the ageout sweep and the flush check). -/
def addIngest (mb : MsgBuffer) (m : Msg) (now : Int) : MsgBuffer :=
  match lookupSender mb.senders m.icao24 with
  | none =>
      if m.hasPosition then
        { mb with senders := setSender mb.senders m.icao24 (freshSender now) }
      else mb
  | some s =>
      let s' := updateFromMsg s m now
      let mb' := { mb with senders := setSender mb.senders m.icao24 s' }
      match maybeCreateComposite s' m with
      | some composite => { mb' with messages := mb'.messages ++ [composite] }
      | none => mb'

/-- Embeds the flush trigger at the end of MsgBuffer.Add: if the buffer is
non-empty and its first message is old enough and the last flush is old
enough, flush. -/
def flushCheck (mb : MsgBuffer) (now : Int) : MsgBuffer × List (List CompositeMsg) :=
  match mb.messages with
  | [] => (mb, [])
  | c :: _ =>
      if now - c.msg.generatedTimestampUTC ≥ mb.maxMessageAge ∧
         now - mb.lastFlush ≥ mb.minPublishInterval then
        flush mb now
      else (mb, [])

/-- Embeds MsgBuffer.Add: ageout sweep, then ingest, then flush check. -/
def Add (mb : MsgBuffer) (m : Msg) (now : Int) : MsgBuffer × List (List CompositeMsg) :=
  flushCheck (addIngest (ageOutQuietSenders mb now).1 m now) now

/-- Embeds MsgBuffer.FinalFlush: an unconditional flush. -/
def FinalFlush (mb : MsgBuffer) (now : Int) : MsgBuffer × List (List CompositeMsg) :=
  flush mb now

end Msgbuffer

namespace Trackbuffer

open Adsb

/-- Embeds trackbuffer.Track: messages of a single IcaoId in arrival order. -/
structure Track where
  messages : List CompositeMsg
  deriving DecidableEq, Repr

/-- Embeds trackbuffer.TrackBuffer. -/
structure TrackBuffer where
  maxAge : Int
  tracks : List (String × Track)
  lastFlush : Int
  deriving DecidableEq, Repr

/-- Embeds NewTrackBuffer evaluated at wall-clock instant `now`. -/
def NewTrackBuffer (now : Int) : TrackBuffer :=
  { maxAge := 30 * second, tracks := [], lastFlush := now }

/-- Association-list lookup, embedding a Go map read `tb.Tracks[k]`. -/
def lookupTrack : List (String × Track) → String → Option Track
  | [], _ => none
  | (k, v) :: rest, key => if k = key then some v else lookupTrack rest key

/-- Association-list store, embedding a Go map write `tb.Tracks[k] = v`. -/
def setTrack : List (String × Track) → String → Track → List (String × Track)
  | [], key, v => [(key, v)]
  | (k, v') :: rest, key, v =>
      if k = key then (key, v) :: rest else (k, v') :: setTrack rest key v

/-- Association-list deletion, embedding `delete(tb.Tracks, k)`. -/
def eraseTrack : List (String × Track) → String → List (String × Track)
  | [], _ => []
  | (k, v) :: rest, key =>
      if k = key then rest else (k, v) :: eraseTrack rest key

/-- Embeds Track.Age evaluated at wall-clock instant `now`: 24 hours for an
empty track, otherwise the age of the first-appended message. -/
def trackAge (t : Track) (now : Int) : Int :=
  match t.messages with
  | [] => 24 * 3600 * second
  | c :: _ => now - c.msg.generatedTimestampUTC

/-- Embeds TrackBuffer.AddTrack. -/
def AddTrack (tb : TrackBuffer) (icao : String) : TrackBuffer :=
  { tb with tracks := setTrack tb.tracks icao { messages := [] } }

/-- Embeds TrackBuffer.AddMessage: look up or create the track for the
composite's identifier, then append the composite. -/
def AddMessage (tb : TrackBuffer) (m : CompositeMsg) : TrackBuffer :=
  let tb1 := if (lookupTrack tb.tracks m.msg.icao24).isNone then AddTrack tb m.msg.icao24 else tb
  match lookupTrack tb1.tracks m.msg.icao24 with
  | some t => { tb1 with tracks := setTrack tb1.tracks m.msg.icao24 { messages := t.messages ++ [m] } }
  | none => tb1

/-- Embeds TrackBuffer.RemoveTracks, acting on the raw track map: look up
each named track and delete it, collecting the removed tracks in order. -/
def removeTracks (tracks : List (String × Track)) :
    List String → List (String × Track) × List Track
  | [] => (tracks, [])
  | icao :: rest =>
      let found := (lookupTrack tracks icao).toList
      let r := removeTracks (eraseTrack tracks icao) rest
      (r.1, found ++ r.2)

/-- Embeds the comparison of adsb.CompositeMsgPtrByTimeAsc (composite.go):
ascending by generation timestamp.  sort.Sort's unspecified comparison
sort is embedded as an insertion sort over this comparison. -/
def sortByTimeAsc (l : List CompositeMsg) : List CompositeMsg :=
  l.insertionSort (fun a b => a.msg.generatedTimestampUTC ≤ b.msg.generatedTimestampUTC)

/-- Embeds TrackBuffer.Flush: rate-limited to once per second; removes
every track older than MaxAge and delivers each one, sorted ascending by
generation timestamp, as its own batch. -/
def Flush (tb : TrackBuffer) (now : Int) : TrackBuffer × List (List CompositeMsg) :=
  if now - tb.lastFlush < second then (tb, [])
  else
    let tb1 := { tb with lastFlush := now }
    let toRemove := (tb1.tracks.filter (fun p => trackAge p.2 now > tb1.maxAge)).map (fun p => p.1)
    let r := removeTracks tb1.tracks toRemove
    ({ tb1 with tracks := r.1 }, r.2.map (fun t => sortByTimeAsc t.messages))

end Trackbuffer

namespace Adsb

/-- Field indices of the SBS1 record (composite.go). -/
def SBS1Message : Nat := 0

/-- Embeds the SBS1Transmission index constant. -/
def SBS1Transmission : Nat := 1

/-- Embeds the SBS1Icao24 index constant. -/
def SBS1Icao24 : Nat := 4

/-- Embeds the SBS1DateGen index constant. -/
def SBS1DateGen : Nat := 6

/-- Embeds the SBS1TimeGen index constant. -/
def SBS1TimeGen : Nat := 7

/-- Embeds the SBS1DateLog index constant. -/
def SBS1DateLog : Nat := 8

/-- Embeds the SBS1TimeLog index constant. -/
def SBS1TimeLog : Nat := 9

/-- Embeds the SBS1Callsign index constant. -/
def SBS1Callsign : Nat := 10

/-- Embeds the SBS1Altitude index constant. -/
def SBS1Altitude : Nat := 11

/-- Embeds the SBS1GroundSpeed index constant. -/
def SBS1GroundSpeed : Nat := 12

/-- Embeds the SBS1Track index constant. -/
def SBS1Track : Nat := 13

/-- Embeds the SBS1Latitude index constant. -/
def SBS1Latitude : Nat := 14

/-- Embeds the SBS1Longitude index constant. -/
def SBS1Longitude : Nat := 15

/-- Embeds the SBS1VerticalRate index constant. -/
def SBS1VerticalRate : Nat := 16

/-- Embeds the SBS1Squawk index constant. -/
def SBS1Squawk : Nat := 17

/-- Embeds the ExtSBSNumStations index constant. -/
def ExtSBSNumStations : Nat := 22

/-- Reading a record cell, embedding the Go slice index `r[i]` (never out
of range once the arity check has passed). -/
def cell (r : List String) (i : Nat) : String := r.getD i ""

/-- Embeds strconv.ParseInt(s, 10, 64) (Go stdlib, not under src/):
optional sign, one or more decimal digits, 64-bit signed range. -/
def parseInt64 (s : String) : Option Int :=
  let chars := s.data
  let signedDigits : Bool × List Char :=
    match chars with
    | '-' :: rest => (true, rest)
    | '+' :: rest => (false, rest)
    | _ => (false, chars)
  if signedDigits.2 = [] then none
  else if signedDigits.2.all Char.isDigit then
    let n : Nat := signedDigits.2.foldl (fun a c => a * 10 + (c.toNat - 48)) 0
    let v : Int := if signedDigits.1 then -(n : Int) else (n : Int)
    if -(2 ^ 63) ≤ v ∧ v < 2 ^ 63 then some v else none
  else none

/-- Modelled from the spec: strconv.ParseFloat (Go stdlib, not under src/)
is reduced to a parser of plain decimal literals; the accepted value is
embedded as a fixed-point integer (nine fractional digits).  The claims
about this repository depend only on parse success or failure, never on
the numeric value. -/
def parseFloatFixed (s : String) : Option Int :=
  let chars := s.data
  let signedDigits : Bool × List Char :=
    match chars with
    | '-' :: rest => (true, rest)
    | '+' :: rest => (false, rest)
    | _ => (false, chars)
  let parts := signedDigits.2.splitOn '.'
  let digitsVal : List Char → Nat := fun l => l.foldl (fun a c => a * 10 + (c.toNat - 48)) 0
  match parts with
  | [intPart] =>
      if intPart ≠ [] ∧ intPart.all Char.isDigit then
        let v : Int := (digitsVal intPart : Int) * 1000000000
        some (if signedDigits.1 then -v else v)
      else none
  | [intPart, fracPart] =>
      if intPart ≠ [] ∧ intPart.all Char.isDigit ∧ fracPart.all Char.isDigit then
        let frac9 := (fracPart ++ List.replicate 9 '0').take 9
        let v : Int := (digitsVal intPart : Int) * 1000000000 + (digitsVal frac9 : Int)
        some (if signedDigits.1 then -v else v)
      else none
  | _ => none

/-- Parsing of a fixed-width all-digit group, helper for the timestamp model. -/
def digitGroup (l : List Char) (width : Nat) : Option Nat :=
  if l.length = width ∧ l.all Char.isDigit then
    some (l.foldl (fun a c => a * 10 + (c.toNat - 48)) 0)
  else none

/-- Modelled from the spec: toTimeUTC (composite.go) feeds two cells to Go
stdlib time.ParseInLocation with layout 2006/01/02 15:04:05.999999999 and
location UTC; the stdlib parser is not under src/.  The embedding parses
the same shape (four-digit year / two-digit month / two-digit day,
two-digit hour:minute:second with an optional fractional part of at most
nine digits, fields range-checked) and maps it injectively to an Int
instant; the claims treat instants opaquely. -/
def toTimeUTC (d t : String) : Option Int :=
  match d.data.splitOn '/' with
  | [ys, ms, ds] =>
    match digitGroup ys 4, digitGroup ms 2, digitGroup ds 2 with
    | some y, some mo, some da =>
      if 1 ≤ mo ∧ mo ≤ 12 ∧ 1 ≤ da ∧ da ≤ 31 then
        match t.data.splitOn ':' with
        | [hs, mins, ss] =>
          match digitGroup hs 2, digitGroup mins 2 with
          | some h, some mi =>
            if h < 24 ∧ mi < 60 then
              let secFrac : Option (Nat × Nat) :=
                match ss.splitOn '.' with
                | [sec] =>
                    match digitGroup sec 2 with
                    | some s => if s < 60 then some (s, 0) else none
                    | none => none
                | [sec, frac] =>
                    match digitGroup sec 2 with
                    | some s =>
                        if s < 60 ∧ frac ≠ [] ∧ frac.length ≤ 9 ∧ frac.all Char.isDigit then
                          let frac9 := (frac ++ List.replicate 9 '0').take 9
                          some (s, frac9.foldl (fun a c => a * 10 + (c.toNat - 48)) 0)
                        else none
                    | none => none
                | _ => none
              match secFrac with
              | some sf =>
                  some ((((((y * 372 + (mo - 1) * 31 + (da - 1)) * 24 + h) * 60 + mi) * 60
                    + sf.1 : Nat) : Int) * second + (sf.2 : Int))
              | none => none
            else none
          | _, _ => none
        | _ => none
      else none
    | _, _, _ => none
  | _ => none

/-- Embeds the zero value `adsb.Msg{}` that FromSBS1 populates. -/
def Msg.zero : Msg :=
  { type := "", subType := 0, icao24 := "", generatedTimestampUTC := 0,
    loggedTimestampUTC := 0, callsign := "", altitude := 0, groundSpeed := 0,
    track := 0, position := { lat := 0, long := 0 }, verticalRate := 0,
    squawk := "", alertSquawkChange := false, emergency := false, spi := false,
    isOnGround := false, numStations := 0, hasPosition := false,
    hasCallsign := false, hasSquawk := false, hasAltitude := false,
    hasGroundSpeed := false, hasTrack := false, hasVerticalRate := false }

/-- Embeds Msg.FromSBS1 (composite.go) on the comma-separated record `r`
produced by the csv read of one input line: reject any arity other than 22
or 25, then populate the fields cell by cell, propagating every cell
decode failure as an error.  The dead-stored NumStations branch of the
source (assignment under err != nil) is embedded as written. -/
def fromSBS1 (r : List String) : Except String Msg :=
  if r.length ≠ 22 ∧ r.length ≠ 25 then
    Except.error ("Message was corrupt; has " ++ toString r.length ++ " fields")
  else
    let m := Msg.zero
    let m := { m with type := cell r SBS1Message }
    match parseInt64 (cell r SBS1Transmission) with
    | none => Except.error "strconv"
    | some sub =>
    let m := { m with subType := sub, icao24 := cell r SBS1Icao24 }
    match toTimeUTC (cell r SBS1DateGen) (cell r SBS1TimeGen) with
    | none => Except.error "time"
    | some tg =>
    let m := { m with generatedTimestampUTC := tg }
    match toTimeUTC (cell r SBS1DateLog) (cell r SBS1TimeLog) with
    | none => Except.error "time"
    | some tl =>
    let m := { m with loggedTimestampUTC := tl }
    let m := if (cell r SBS1Callsign).length > 0 then
               { m with hasCallsign := true, callsign := (cell r SBS1Callsign).trim }
             else m
    let m := if (cell r SBS1Squawk).length > 0 then
               { m with hasSquawk := true, squawk := (cell r SBS1Squawk).trim }
             else m
    (if cell r SBS1Altitude ≠ "" then
       (parseInt64 (cell r SBS1Altitude)).map (fun i => ({ m with altitude := i, hasAltitude := true }))
         |>.elim (Except.error "strconv") Except.ok
     else Except.ok m).bind (fun m =>
    (if cell r SBS1GroundSpeed ≠ "" then
       (parseInt64 (cell r SBS1GroundSpeed)).map (fun i => ({ m with groundSpeed := i, hasGroundSpeed := true }))
         |>.elim (Except.error "strconv") Except.ok
     else Except.ok m).bind (fun m =>
    (if cell r SBS1Track ≠ "" then
       (parseInt64 (cell r SBS1Track)).map (fun i => ({ m with track := i, hasTrack := true }))
         |>.elim (Except.error "strconv") Except.ok
     else Except.ok m).bind (fun m =>
    (if cell r SBS1VerticalRate ≠ "" then
       (parseInt64 (cell r SBS1VerticalRate)).map (fun i => ({ m with verticalRate := i, hasVerticalRate := true }))
         |>.elim (Except.error "strconv") Except.ok
     else Except.ok m).bind (fun m =>
    (if cell r SBS1Latitude ≠ "" ∧ cell r SBS1Longitude ≠ "" then
       match parseFloatFixed (cell r SBS1Latitude), parseFloatFixed (cell r SBS1Longitude) with
       | some lat, some long =>
           Except.ok { m with position := { lat := lat, long := long }, hasPosition := true }
       | _, _ => Except.error "strconv"
     else Except.ok m).bind (fun m =>
    Except.ok (if r.length = 25 ∧ cell r ExtSBSNumStations ≠ "" then
                 match parseInt64 (cell r ExtSBSNumStations) with
                 | none => { m with numStations := 0 }
                 | some _ => m
               else m))))))

end Adsb

namespace Adsb

/-!
Embedding of Base64EncodeMessages / Base64DecodeMessages (composite.go),
which delegate the serialization to Go's encoding/gob and encoding/base64.
Gob serializes only the EXPORTED fields of CompositeMsg and of its
embedded Msg, and on decode it leaves the unexported fields -- the seven
presence flags -- at their Go zero value false.  The embedding reproduces
exactly that: the blob (a list of naturals; the bijective base64 byte
layer is absorbed into this representation) carries the batch count, then
each message's exported fields -- strings length-prefixed, integers as
sign and magnitude -- and decoding rebuilds every message with all
presence flags false.
-/

/-- Encoding of one Int of the blob: sign marker then magnitude. -/
def encInt (i : Int) : List Nat :=
  if i < 0 then [1, i.natAbs] else [0, i.natAbs]

/-- Encoding of one Bool of the blob. -/
def encBool (b : Bool) : List Nat := [if b then 1 else 0]

/-- Length-prefixed encoding of one string of the blob. -/
def encString (s : String) : List Nat :=
  s.length :: s.data.map Char.toNat

/-- Encoding of a Latlong of the blob. -/
def encLatlong (p : Latlong) : List Nat :=
  encInt p.lat ++ encInt p.long

/-- Encoding of the exported fields of one Msg of the blob; the seven
unexported presence flags are not emitted, as gob does not emit them. -/
def encMsg (m : Msg) : List Nat :=
  encString m.type ++ encInt m.subType ++ encString m.icao24 ++
  encInt m.generatedTimestampUTC ++ encInt m.loggedTimestampUTC ++
  encString m.callsign ++ encInt m.altitude ++ encInt m.groundSpeed ++
  encInt m.track ++ encLatlong m.position ++ encInt m.verticalRate ++
  encString m.squawk ++ encBool m.alertSquawkChange ++ encBool m.emergency ++
  encBool m.spi ++ encBool m.isOnGround ++ encInt m.numStations

/-- Encoding of one CompositeMsg of the blob. -/
def encCompositeMsg (c : CompositeMsg) : List Nat :=
  encMsg c.msg ++ encString c.receiverName

/-- Decoding of one Int of the blob. -/
def decInt : List Nat → Option (Int × List Nat)
  | 0 :: n :: rest => some ((n : Int), rest)
  | 1 :: n :: rest => some (-(n : Int), rest)
  | _ => none

/-- Decoding of one Bool of the blob. -/
def decBool : List Nat → Option (Bool × List Nat)
  | 0 :: rest => some (false, rest)
  | 1 :: rest => some (true, rest)
  | _ => none

/-- Decoding of a counted run of characters of the blob. -/
def decChars : Nat → List Nat → Option (List Char × List Nat)
  | 0, rest => some ([], rest)
  | _ + 1, [] => none
  | k + 1, n :: rest =>
      (decChars k rest).map (fun p => (Char.ofNat n :: p.1, p.2))

/-- Decoding of one string of the blob. -/
def decString : List Nat → Option (String × List Nat)
  | [] => none
  | n :: rest => (decChars n rest).map (fun p => (String.mk p.1, p.2))

/-- Decoding of a Latlong of the blob. -/
def decLatlong (l : List Nat) : Option (Latlong × List Nat) :=
  (decInt l).bind fun p1 =>
  (decInt p1.2).map fun p2 => ({ lat := p1.1, long := p2.1 }, p2.2)

/-- Decoding of the first six exported Msg fields of the blob. -/
def decMsgStage1 (l : List Nat) : Option (Msg × List Nat) := do
  let pType ← decString l
  let pSub ← decInt pType.2
  let pIcao ← decString pSub.2
  let pGen ← decInt pIcao.2
  let pLog ← decInt pGen.2
  let pCallsign ← decString pLog.2
  some ({ Msg.zero with
            type := pType.1
            subType := pSub.1
            icao24 := pIcao.1
            generatedTimestampUTC := pGen.1
            loggedTimestampUTC := pLog.1
            callsign := pCallsign.1 }, pCallsign.2)

/-- Decoding of the next six exported Msg fields of the blob. -/
def decMsgStage2 (m : Msg) (l : List Nat) : Option (Msg × List Nat) := do
  let pAlt ← decInt l
  let pGs ← decInt pAlt.2
  let pTrack ← decInt pGs.2
  let pPos ← decLatlong pTrack.2
  let pVr ← decInt pPos.2
  let pSquawk ← decString pVr.2
  some ({ m with
            altitude := pAlt.1
            groundSpeed := pGs.1
            track := pTrack.1
            position := pPos.1
            verticalRate := pVr.1
            squawk := pSquawk.1 }, pSquawk.2)

/-- Decoding of the remaining five exported Msg fields of the blob. -/
def decMsgStage3 (m : Msg) (l : List Nat) : Option (Msg × List Nat) := do
  let pAsc ← decBool l
  let pEmerg ← decBool pAsc.2
  let pSpi ← decBool pEmerg.2
  let pGround ← decBool pSpi.2
  let pNum ← decInt pGround.2
  some ({ m with
            alertSquawkChange := pAsc.1
            emergency := pEmerg.1
            spi := pSpi.1
            isOnGround := pGround.1
            numStations := pNum.1 }, pNum.2)

/-- Decoding of one Msg of the blob: the exported fields are restored and
the unexported presence flags stay at their zero value false (those of
Msg.zero, which decMsgStage1 starts from), exactly as gob leaves Go's
unexported fields untouched on decode. -/
def decMsg (l : List Nat) : Option (Msg × List Nat) := do
  let p1 ← decMsgStage1 l
  let p2 ← decMsgStage2 p1.1 p1.2
  decMsgStage3 p2.1 p2.2

/-- What survives the gob wire of one Msg: every exported field kept, the
seven unexported presence flags reset to false. -/
def gobWireMsg (m : Msg) : Msg :=
  { m with
      hasPosition := false
      hasCallsign := false
      hasSquawk := false
      hasAltitude := false
      hasGroundSpeed := false
      hasTrack := false
      hasVerticalRate := false }

/-- What survives the gob wire of one CompositeMsg. -/
def gobWire (c : CompositeMsg) : CompositeMsg :=
  { msg := gobWireMsg c.msg, receiverName := c.receiverName }

/-- Decoding of one CompositeMsg of the blob. -/
def decCompositeMsg (l : List Nat) : Option (CompositeMsg × List Nat) :=
  (decMsg l).bind fun pm =>
  (decString pm.2).map fun pr => ({ msg := pm.1, receiverName := pr.1 }, pr.2)

/-- Decoding of a counted run of CompositeMsgs of the blob. -/
def decCompositeMsgs : Nat → List Nat → Option (List CompositeMsg × List Nat)
  | 0, rest => some ([], rest)
  | k + 1, l =>
      (decCompositeMsg l).bind fun p =>
      (decCompositeMsgs k p.2).map fun q => (p.1 :: q.1, q.2)

/-- Embeds Base64EncodeMessages (composite.go): the count-prefixed gob
serialization of a whole composite batch into one blob. -/
def Base64EncodeMessages (msgs : List CompositeMsg) : List Nat :=
  msgs.length :: (msgs.map encCompositeMsg).flatten

/-- Embeds Base64DecodeMessages (composite.go): gob decoding of a blob
back into a composite batch. -/
def Base64DecodeMessages : List Nat → Option (List CompositeMsg)
  | [] => none
  | n :: rest => (decCompositeMsgs n rest).map fun p => p.1

end Adsb

namespace Trackbuffer

open Adsb

/-- Well-formedness of a track buffer as produced by AddMessage: track keys
are distinct, every track is non-empty, and a track holds exactly messages
of its own IcaoId. -/
def TrackBufferWF (tb : TrackBuffer) : Prop :=
  (tb.tracks.map (fun p => p.1)).Nodup ∧
  ∀ p ∈ tb.tracks, p.2.messages ≠ [] ∧ ∀ c ∈ p.2.messages, c.msg.icao24 = p.1

end Trackbuffer

namespace Fixtures

open Adsb Msgbuffer Trackbuffer

/-- Concrete position-bearing message (fields as parsed from the MSG,3
sample line of the repository's tests). -/
def posMsg : Msg :=
  { Msg.zero with
      type := "MSG"
      subType := 3
      icao24 := "A81BD0"
      generatedTimestampUTC := 2 * second
      altitude := 20125
      position := { lat := 36698040000, long := -121860070000 }
      hasPosition := true
      hasAltitude := true }

/-- Concrete message with no optional field at all (an MSG,7-like report
stripped of altitude). -/
def quietMsg : Msg :=
  { Msg.zero with type := "MSG", subType := 7, icao24 := "A81BD0" }

/-- Concrete MSG,1 message explicitly carrying a blank callsign. -/
def blankCallsignMsg : Msg :=
  { Msg.zero with
      type := "MSG"
      subType := 1
      icao24 := "A81BD0"
      hasCallsign := true }

/-- Concrete sender cache with every cached field still at its zero value. -/
def zeroSender : ADSBSender :=
  { lastSeen := 0, lastGroundSpeed := 0, lastVerticalSpeed := 0,
    lastTrack := 0, lastCallsign := "", lastSquawk := "" }

/-- Concrete MsgBuffer holding one admitted all-zero sender and no pending
messages, with zero thresholds. -/
def mbOneSender : MsgBuffer :=
  { minPublishInterval := 0, maxMessageAge := 0, maxQuietTime := 360 * second,
    senders := [("A81BD0", zeroSender)], messages := [], lastFlush := 0,
    lastAgeOut := 0 }

/-- Concrete empty MsgBuffer. -/
def mbEmpty : MsgBuffer :=
  { minPublishInterval := 0, maxMessageAge := 0, maxQuietTime := 360 * second,
    senders := [], messages := [], lastFlush := 0, lastAgeOut := 0 }

/-- Concrete pending composite built from posMsg. -/
def pendingComposite : CompositeMsg :=
  { msg := posMsg, receiverName := "" }

/-- Concrete MsgBuffer with one pending composite, ready to flush. -/
def mbPending : MsgBuffer :=
  { minPublishInterval := 0, maxMessageAge := 0, maxQuietTime := 360 * second,
    senders := [("A81BD0", zeroSender)], messages := [pendingComposite],
    lastFlush := 0, lastAgeOut := 0 }

/-- Concrete TrackBuffer holding one single-message track, old enough to
flush. -/
def tbOneTrack : TrackBuffer :=
  { maxAge := 0, tracks := [("A81BD0", { messages := [pendingComposite] })],
    lastFlush := 0 }

end Fixtures

open Adsb Msgbuffer Trackbuffer

/-- Characterization: updateFromMsg always refreshes the last-seen clock. -/
theorem updateFromMsg_lastSeen (s : ADSBSender) (m : Msg) (now : Int) :
    (updateFromMsg s m now).lastSeen = now := by
  by_cases hf : m.type = "MSG_foooo" <;>
    simp [updateFromMsg, apply_ite ADSBSender.lastSeen, hf]

/-- Characterization: the cached ground speed is overwritten exactly when
the message carries the field. -/
theorem updateFromMsg_lastGroundSpeed (s : ADSBSender) (m : Msg) (now : Int) :
    (updateFromMsg s m now).lastGroundSpeed =
      if m.hasGroundSpeed then m.groundSpeed else s.lastGroundSpeed := by
  by_cases hf : m.type = "MSG_foooo" <;> by_cases hgs : m.hasGroundSpeed <;>
    simp [updateFromMsg, apply_ite ADSBSender.lastGroundSpeed, hf, hgs]

/-- Characterization: the cached track is overwritten exactly when the
message carries the field. -/
theorem updateFromMsg_lastTrack (s : ADSBSender) (m : Msg) (now : Int) :
    (updateFromMsg s m now).lastTrack =
      if m.hasTrack then m.track else s.lastTrack := by
  by_cases hf : m.type = "MSG_foooo" <;> by_cases ht : m.hasTrack <;>
    simp [updateFromMsg, apply_ite ADSBSender.lastTrack, hf, ht]

/-- Characterization: the cached vertical speed is overwritten exactly when
the message carries the vertical-rate field. -/
theorem updateFromMsg_lastVerticalSpeed (s : ADSBSender) (m : Msg) (now : Int) :
    (updateFromMsg s m now).lastVerticalSpeed =
      if m.hasVerticalRate then m.verticalRate else s.lastVerticalSpeed := by
  by_cases hf : m.type = "MSG_foooo" <;> by_cases hv : m.hasVerticalRate <;>
    simp [updateFromMsg, apply_ite ADSBSender.lastVerticalSpeed, hf, hv]

/-- Characterization: under the parser invariant (a non-empty squawk value
implies the presence flag), the cached squawk is overwritten exactly when
the message carries the field. -/
theorem updateFromMsg_lastSquawk (s : ADSBSender) (m : Msg) (now : Int)
    (h : m.squawk ≠ "" → m.hasSquawk = true) :
    (updateFromMsg s m now).lastSquawk =
      if m.hasSquawk then m.squawk else s.lastSquawk := by
  by_cases hsq : m.hasSquawk
  · by_cases hf : m.type = "MSG_foooo" <;>
      simp [updateFromMsg, apply_ite ADSBSender.lastSquawk, hf, hsq]
  · have hempty : m.squawk = "" := by
      by_contra hne
      exact hsq (h hne)
    by_cases hf : m.type = "MSG_foooo" <;>
      simp [updateFromMsg, apply_ite ADSBSender.lastSquawk, hf, hsq, hempty]

/-- Characterization: an explicitly carried blank callsign is cached as the
magic sentinel string. -/
theorem updateFromMsg_lastCallsign_blank (s : ADSBSender) (m : Msg) (now : Int)
    (hc : m.hasCallsign = true) (he : m.callsign = "") :
    (updateFromMsg s m now).lastCallsign = "_._._._." := by
  by_cases hf : m.type = "MSG_foooo" <;>
    simp [updateFromMsg, apply_ite ADSBSender.lastCallsign, hf, hc, he]

/-- Characterization: an explicitly carried non-empty callsign is cached
verbatim. -/
theorem updateFromMsg_lastCallsign_value (s : ADSBSender) (m : Msg) (now : Int)
    (hc : m.hasCallsign = true) (hne : m.callsign ≠ "") :
    (updateFromMsg s m now).lastCallsign = m.callsign := by
  have hlen : m.callsign.length > 0 := by
    cases hm : m.callsign with
    | mk data =>
      cases data with
      | nil => exact absurd hm (by simpa using hne)
      | cons c cs => simp [String.length, hm]
  by_cases hf : m.type = "MSG_foooo" <;>
    simp [updateFromMsg, apply_ite ADSBSender.lastCallsign, hf, hc, hne, hlen]

/-- Characterization: a message not carrying a callsign (and not of the
dead legacy callsign shape) leaves the cached callsign unchanged. -/
theorem updateFromMsg_lastCallsign_absent (s : ADSBSender) (m : Msg) (now : Int)
    (hc : m.hasCallsign = false) (hguard : ¬(m.type = "MSG_foooo" ∧ m.subType = 1)) :
    (updateFromMsg s m now).lastCallsign = s.lastCallsign := by
  by_cases hf : m.type = "MSG_foooo"
  · have hsub : ¬ m.subType = 1 := fun h => hguard ⟨hf, h⟩
    simp [updateFromMsg, apply_ite ADSBSender.lastCallsign, hf, hc, hsub]
  · simp [updateFromMsg, apply_ite ADSBSender.lastCallsign, hf, hc]

/-- Characterization: on a position-bearing message the synthesizer emits
exactly one composite, the clone of the message with its zero or empty
fields backfilled from the cache. -/
theorem maybeCreateComposite_eq (s : ADSBSender) (m : Msg)
    (hp : m.hasPosition = true) :
    maybeCreateComposite s m = some
      { msg := { m with
                  groundSpeed := if m.groundSpeed = 0 then s.lastGroundSpeed else m.groundSpeed
                  verticalRate := if m.verticalRate = 0 then s.lastVerticalSpeed else m.verticalRate
                  track := if m.track = 0 then s.lastTrack else m.track
                  callsign := if m.callsign = "" then s.lastCallsign else m.callsign
                  squawk := if m.squawk = "" then s.lastSquawk else m.squawk },
        receiverName := "" } := by
  by_cases h1 : m.groundSpeed = 0 <;> by_cases h2 : m.verticalRate = 0 <;>
   by_cases h3 : m.track = 0 <;> by_cases h4 : m.callsign = "" <;>
   by_cases h5 : m.squawk = "" <;>
    simp [maybeCreateComposite, hp, h1, h2, h3, h4, h5]
  all_goals (cases m; simp_all)

/-- Characterization: the synthesizer emits nothing for a message without
position. -/
theorem maybeCreateComposite_none (s : ADSBSender) (m : Msg)
    (hp : m.hasPosition = false) :
    maybeCreateComposite s m = none := by
  simp [maybeCreateComposite, hp]

/-- C5: for every admitted sender, updateFromMsg overwrites the cached
squawk, ground speed, track or vertical rate exactly when the incoming
message explicitly carries that field (presence flag set), including a
legitimate zero value; a message not carrying the field leaves the cached
value unchanged.  The squawk clause assumes the parser invariant that a
non-empty squawk value comes with its presence flag (Msg.FromSBS1 only
sets Squawk from a non-empty cell, which also sets the flag). -/
theorem claim_C5 (s : ADSBSender) (m : Msg) (now : Int)
    (h : m.squawk ≠ "" → m.hasSquawk = true) :
    (updateFromMsg s m now).lastGroundSpeed =
      (if m.hasGroundSpeed then m.groundSpeed else s.lastGroundSpeed) ∧
    (updateFromMsg s m now).lastTrack =
      (if m.hasTrack then m.track else s.lastTrack) ∧
    (updateFromMsg s m now).lastVerticalSpeed =
      (if m.hasVerticalRate then m.verticalRate else s.lastVerticalSpeed) ∧
    (updateFromMsg s m now).lastSquawk =
      (if m.hasSquawk then m.squawk else s.lastSquawk) :=
  ⟨updateFromMsg_lastGroundSpeed s m now, updateFromMsg_lastTrack s m now,
   updateFromMsg_lastVerticalSpeed s m now, updateFromMsg_lastSquawk s m now h⟩

/-- Witness for C5: a sender with non-zero cached values receives a message
explicitly carrying ground speed zero and no other optional field; the
cached ground speed is overwritten with the legitimate zero, the other
cached fields stay. -/
theorem claim_C5_witness :
    (updateFromMsg
        { lastSeen := 0, lastGroundSpeed := 304, lastVerticalSpeed := -1856,
          lastTrack := 328, lastCallsign := "VRD961", lastSquawk := "1200" }
        { Fixtures.quietMsg with hasGroundSpeed := true } 7).lastGroundSpeed =
      (if ({ Fixtures.quietMsg with hasGroundSpeed := true } : Msg).hasGroundSpeed
        then ({ Fixtures.quietMsg with hasGroundSpeed := true } : Msg).groundSpeed
        else (304 : Int)) :=
  (claim_C5
    { lastSeen := 0, lastGroundSpeed := 304, lastVerticalSpeed := -1856,
      lastTrack := 328, lastCallsign := "VRD961", lastSquawk := "1200" }
    { Fixtures.quietMsg with hasGroundSpeed := true } 7 (by decide)).1

/-- C6: a message explicitly carrying an empty callsign makes
updateFromMsg cache the reserved sentinel, which differs from the
never-received empty string; a later position-bearing message that itself
lacks a callsign gets backfilled with exactly that sentinel, until a
non-empty callsign arrives and replaces it. -/
theorem claim_C6 (s : ADSBSender) (m1 : Msg) (now1 : Int)
    (h1 : m1.hasCallsign = true) (h2 : m1.callsign = "") :
    ((updateFromMsg s m1 now1).lastCallsign = "_._._._." ∧
      ("_._._._." : String) ≠ "") ∧
    (∀ (m2 : Msg) (now2 : Int), m2.hasPosition = true → m2.hasCallsign = false →
      m2.callsign = "" → ¬(m2.type = "MSG_foooo" ∧ m2.subType = 1) →
      ∃ c, maybeCreateComposite (updateFromMsg (updateFromMsg s m1 now1) m2 now2) m2
            = some c ∧ c.msg.callsign = "_._._._.") ∧
    (∀ (m3 : Msg) (now3 : Int), m3.hasCallsign = true → m3.callsign ≠ "" →
      (updateFromMsg (updateFromMsg s m1 now1) m3 now3).lastCallsign = m3.callsign) := by
  refine ⟨⟨updateFromMsg_lastCallsign_blank s m1 now1 h1 h2, by decide⟩, ?_, ?_⟩
  · intro m2 now2 hp hnc hem hguard
    refine ⟨_, maybeCreateComposite_eq _ m2 hp, ?_⟩
    simp only [updateFromMsg_lastCallsign_absent _ m2 now2 hnc hguard,
      updateFromMsg_lastCallsign_blank s m1 now1 h1 h2, hem]
    simp
  · intro m3 now3 hc3 hne3
    exact updateFromMsg_lastCallsign_value _ m3 now3 hc3 hne3

/-- Witness for C6: starting from the all-zero cache, an explicitly blank
MSG,1 caches the sentinel, and the following position message without a
callsign is backfilled with the sentinel. -/
theorem claim_C6_witness :
    (updateFromMsg Fixtures.zeroSender Fixtures.blankCallsignMsg 1).lastCallsign
        = "_._._._." ∧
    ∃ c, maybeCreateComposite
          (updateFromMsg (updateFromMsg Fixtures.zeroSender Fixtures.blankCallsignMsg 1)
            Fixtures.posMsg 2)
          Fixtures.posMsg = some c ∧ c.msg.callsign = "_._._._." :=
  ⟨(claim_C6 Fixtures.zeroSender Fixtures.blankCallsignMsg 1 (by decide) (by decide)).1.1,
   (claim_C6 Fixtures.zeroSender Fixtures.blankCallsignMsg 1 (by decide) (by decide)).2.1
     Fixtures.posMsg 2 (by decide) (by decide) (by decide) (by decide)⟩

/-- C1: for an admitted identifier (its SenderState exists) and a
position-bearing message, the synthesizer emits exactly one composite —
whatever the cached values are — and Add appends exactly that composite to
the pending buffer. -/
theorem claim_C1 (mb : MsgBuffer) (m : Msg) (now : Int) (s0 : ADSBSender)
    (hs : lookupSender mb.senders m.icao24 = some s0)
    (hp : m.hasPosition = true) :
    ∃ c, maybeCreateComposite (updateFromMsg s0 m now) m = some c ∧
      (addIngest mb m now).messages = mb.messages ++ [c] := by
  have hc := maybeCreateComposite_eq (updateFromMsg s0 m now) m hp
  refine ⟨_, hc, ?_⟩
  simp [addIngest, hs, hc]

/-- Witness for C1: a sender whose cached ground speed, vertical rate,
track, callsign and squawk were never set still yields exactly one
composite from a position-bearing message. -/
theorem claim_C1_witness :
    ∃ c, maybeCreateComposite (updateFromMsg Fixtures.zeroSender Fixtures.posMsg 3)
          Fixtures.posMsg = some c ∧
      (addIngest Fixtures.mbOneSender Fixtures.posMsg 3).messages
        = Fixtures.mbOneSender.messages ++ [c] :=
  claim_C1 Fixtures.mbOneSender Fixtures.posMsg 3 Fixtures.zeroSender (by decide) (by decide)

/-- Sender lookup after a map write at the same key. -/
theorem lookupSender_setSender_self (l : List (String × ADSBSender)) (k : String)
    (v : ADSBSender) : lookupSender (setSender l k v) k = some v := by
  induction l with
  | nil => simp [setSender, lookupSender]
  | cons p rest ih =>
    by_cases h : p.1 = k <;> simp [setSender, lookupSender, h, ih]

/-- A key absent from the sender map stays absent after any filter pass. -/
theorem lookupSender_filter_none (l : List (String × ADSBSender)) (k : String)
    (q : String × ADSBSender → Bool) (h : lookupSender l k = none) :
    lookupSender (l.filter q) k = none := by
  induction l with
  | nil => simp [lookupSender]
  | cons p rest ih =>
    by_cases hk : p.1 = k
    · simp [lookupSender, hk] at h
    · simp only [lookupSender, hk, if_neg, ite_false] at h
      by_cases hq : q p <;> simp [List.filter, hq, lookupSender, hk, ih h]

/-- The flush check never touches the sender map. -/
theorem flushCheck_senders (mb : MsgBuffer) (now : Int) :
    (flushCheck mb now).1.senders = mb.senders := by
  cases h : mb.messages with
  | nil => simp [flushCheck, h]
  | cons c rest =>
    by_cases hc : now - c.msg.generatedTimestampUTC ≥ mb.maxMessageAge ∧
        now - mb.lastFlush ≥ mb.minPublishInterval <;>
      simp [flushCheck, h, hc, flush]

/-- The ageout sweep never adds a sender entry for an absent key. -/
theorem ageOut_lookup_none (mb : MsgBuffer) (now : Int) (k : String)
    (h : lookupSender mb.senders k = none) :
    lookupSender (ageOutQuietSenders mb now).1.senders k = none := by
  by_cases hgate : now - mb.lastAgeOut < second
  · simpa [ageOutQuietSenders, hgate] using h
  · simpa [ageOutQuietSenders, hgate] using
      lookupSender_filter_none mb.senders k _ h

/-- C2: for an identifier with no SenderState (after the ageout sweep that
opens Add), a message without position changes nothing — no SenderState,
no cache update, no composite — while a position-bearing message creates
the SenderState yet appends zero composites on that call. -/
theorem claim_C2 (mb : MsgBuffer) (m : Msg) (now : Int)
    (hs : lookupSender (ageOutQuietSenders mb now).1.senders m.icao24 = none) :
    Add mb m now = flushCheck (addIngest (ageOutQuietSenders mb now).1 m now) now ∧
    (m.hasPosition = false →
      addIngest (ageOutQuietSenders mb now).1 m now = (ageOutQuietSenders mb now).1) ∧
    (m.hasPosition = true →
      (addIngest (ageOutQuietSenders mb now).1 m now).senders
        = setSender (ageOutQuietSenders mb now).1.senders m.icao24 (freshSender now) ∧
      (addIngest (ageOutQuietSenders mb now).1 m now).messages
        = (ageOutQuietSenders mb now).1.messages) := by
  refine ⟨rfl, ?_, ?_⟩
  · intro hp
    simp [addIngest, hs, hp]
  · intro hp
    constructor <;> simp [addIngest, hs, hp]

/-- Witness for C2: from an empty buffer, a position-less message leaves
the buffer untouched. -/
theorem claim_C2_witness :
    addIngest (ageOutQuietSenders Fixtures.mbEmpty 0).1 Fixtures.quietMsg 0
      = (ageOutQuietSenders Fixtures.mbEmpty 0).1 :=
  (claim_C2 Fixtures.mbEmpty Fixtures.quietMsg 0 (by decide)).2.1 (by decide)

/-- C10: the admitting position-bearing message contributes nothing but the
last-seen clock: the SenderState Add creates for a previously unknown
identifier carries zero ground speed, zero vertical speed, zero track, an
empty callsign and an empty squawk, whatever the message's own payload
fields held (updateFromMsg is not applied to the admission message). -/
theorem claim_C10 (mb : MsgBuffer) (m : Msg) (now : Int)
    (hs : lookupSender mb.senders m.icao24 = none)
    (hp : m.hasPosition = true) :
    lookupSender (Add mb m now).1.senders m.icao24 = some (freshSender now) ∧
    freshSender now =
      { lastSeen := now, lastGroundSpeed := 0, lastVerticalSpeed := 0,
        lastTrack := 0, lastCallsign := "", lastSquawk := "" } := by
  have hs' := ageOut_lookup_none mb now m.icao24 hs
  refine ⟨?_, rfl⟩
  have : (addIngest (ageOutQuietSenders mb now).1 m now).senders
      = setSender (ageOutQuietSenders mb now).1.senders m.icao24 (freshSender now) := by
    simp [addIngest, hs', hp]
  rw [Msgbuffer.Add, flushCheck_senders, this, lookupSender_setSender_self]

/-- Witness for C10: admitting a position message that also carries a
non-zero altitude and payload fields still produces the all-zero fresh
SenderState. -/
theorem claim_C10_witness :
    lookupSender (Add Fixtures.mbEmpty Fixtures.posMsg 0).1.senders
        Fixtures.posMsg.icao24 = some (freshSender 0) ∧
    freshSender 0 =
      { lastSeen := 0, lastGroundSpeed := 0, lastVerticalSpeed := 0,
        lastTrack := 0, lastCallsign := "", lastSquawk := "" } :=
  claim_C10 Fixtures.mbEmpty Fixtures.posMsg 0 (by decide) (by decide)

/-- C3: Add ends with the flush check; the check flushes exactly when the
pending list is non-empty, its first-appended element is at least
max-message-age old, and the last flush is at least min-publish-interval
old; a flush hands the whole pending list over, empties it and records the
flush time; FinalFlush is an unconditional flush. -/
theorem claim_C3 (mb : MsgBuffer) (now : Int) :
    (∀ (m : Msg), Add mb m now
        = flushCheck (addIngest (ageOutQuietSenders mb now).1 m now) now) ∧
    (mb.messages = [] → flushCheck mb now = (mb, [])) ∧
    (∀ c rest, mb.messages = c :: rest →
      ((now - c.msg.generatedTimestampUTC ≥ mb.maxMessageAge ∧
        now - mb.lastFlush ≥ mb.minPublishInterval) →
         flushCheck mb now = flush mb now) ∧
      (¬(now - c.msg.generatedTimestampUTC ≥ mb.maxMessageAge ∧
         now - mb.lastFlush ≥ mb.minPublishInterval) →
         flushCheck mb now = (mb, []))) ∧
    flush mb now = ({ mb with messages := [], lastFlush := now }, [mb.messages]) ∧
    FinalFlush mb now = flush mb now := by
  refine ⟨fun m => rfl, ?_, ?_, rfl, rfl⟩
  · intro h
    simp [flushCheck, h]
  · intro c rest h
    constructor <;> intro hcond <;> simp [flushCheck, h, hcond]

/-- Witness for C3: a buffer holding one old-enough pending composite with
both gates satisfied flushes; FinalFlush flushes unconditionally. -/
theorem claim_C3_witness :
    flushCheck Fixtures.mbPending (3 * second) = flush Fixtures.mbPending (3 * second) ∧
    FinalFlush Fixtures.mbPending (3 * second) = flush Fixtures.mbPending (3 * second) :=
  ⟨((claim_C3 Fixtures.mbPending (3 * second)).2.2.1 Fixtures.pendingComposite [] rfl).1
      (by decide),
   (claim_C3 Fixtures.mbPending (3 * second)).2.2.2.2⟩

/-- The ageout sweep is a no-op within one second of the previous sweep. -/
theorem ageOutQuietSenders_gate (mb : MsgBuffer) (now : Int)
    (h : now - mb.lastAgeOut < second) : ageOutQuietSenders mb now = (mb, 0) := by
  simp [ageOutQuietSenders, h]

/-- C7: the ageout sweep at the start of Add is gated to once per second;
when it runs it deletes exactly the senders quiet for at least
max-quiet-time; a sender strictly younger than max-quiet-time survives
every sweep; a second sweep within the same wall-clock second leaves the
sender set unchanged. -/
theorem claim_C7 (mb : MsgBuffer) (now : Int) :
    (now - mb.lastAgeOut < second → ageOutQuietSenders mb now = (mb, 0)) ∧
    (now - mb.lastAgeOut ≥ second →
      (ageOutQuietSenders mb now).1.senders
        = mb.senders.filter (fun p => !(now - p.2.lastSeen ≥ mb.maxQuietTime)) ∧
      (ageOutQuietSenders mb now).1.lastAgeOut = now) ∧
    (∀ k s, (k, s) ∈ mb.senders →
      ((k, s) ∉ (ageOutQuietSenders mb now).1.senders ↔
        (now - mb.lastAgeOut ≥ second ∧ now - s.lastSeen ≥ mb.maxQuietTime))) ∧
    (∀ k s, (k, s) ∈ mb.senders → now - s.lastSeen < mb.maxQuietTime →
      (k, s) ∈ (ageOutQuietSenders mb now).1.senders) ∧
    (∀ now2, now2 - (ageOutQuietSenders mb now).1.lastAgeOut < second →
      ageOutQuietSenders (ageOutQuietSenders mb now).1 now2
        = ((ageOutQuietSenders mb now).1, 0)) := by
  refine ⟨fun hgate => ageOutQuietSenders_gate mb now hgate, ?_, ?_, ?_,
    fun now2 hgate2 => ageOutQuietSenders_gate _ now2 hgate2⟩
  · intro hgate
    have hgate' : ¬(now - mb.lastAgeOut < second) := by omega
    constructor <;> simp [ageOutQuietSenders, hgate']
  · intro k s hmem
    by_cases hgate : now - mb.lastAgeOut < second
    · simp only [ageOutQuietSenders_gate mb now hgate]
      simp [hmem]
      omega
    · simp only [ageOutQuietSenders, hgate, if_false, ite_false]
      simp [List.mem_filter, hmem]
      omega
  · intro k s hmem hyoung
    by_cases hgate : now - mb.lastAgeOut < second
    · simpa [ageOutQuietSenders_gate mb now hgate] using hmem
    · simp only [ageOutQuietSenders, hgate, if_false, ite_false]
      simp [List.mem_filter, hmem]
      omega

/-- Witness for C7: a second sweep in the same wall-clock second leaves
the single-sender buffer untouched. -/
theorem claim_C7_witness :
    ageOutQuietSenders Fixtures.mbOneSender 0 = (Fixtures.mbOneSender, 0) :=
  (claim_C7 Fixtures.mbOneSender 0).1 (by decide)

/-- C9: a record whose field count is neither 22 nor 25 is rejected by the
wire-format parse with a decode error, so no Msg is ever produced from it. -/
theorem claim_C9 (r : List String) (h22 : r.length ≠ 22) (h25 : r.length ≠ 25) :
    ∃ e, fromSBS1 r = Except.error e := by
  refine ⟨"Message was corrupt; has " ++ toString r.length ++ " fields", ?_⟩
  simp [fromSBS1, h22, h25]

/-- Witness for C9: the empty record (0 fields) is rejected. -/
theorem claim_C9_witness : ∃ e, fromSBS1 [] = Except.error e :=
  claim_C9 [] (by decide) (by decide)

/-- Roundtrip of the Int blob encoding. -/
theorem decInt_encInt (i : Int) (rest : List Nat) :
    decInt (encInt i ++ rest) = some (i, rest) := by
  by_cases h : i < 0
  · have habs : -(i.natAbs : Int) = i := by omega
    simp [encInt, decInt, h, habs]
    rw [abs_of_neg h, neg_neg]
  · have habs : (i.natAbs : Int) = i := by omega
    simp [encInt, decInt, h, habs]

/-- Roundtrip of the Bool blob encoding. -/
theorem decBool_encBool (b : Bool) (rest : List Nat) :
    decBool (encBool b ++ rest) = some (b, rest) := by
  cases b <;> simp [encBool, decBool]

/-- Roundtrip of the character-run blob encoding. -/
theorem decChars_enc (l : List Char) (rest : List Nat) :
    decChars l.length (l.map Char.toNat ++ rest) = some (l, rest) := by
  induction l with
  | nil => simp [decChars]
  | cons c cs ih => simp [decChars, ih, Char.ofNat_toNat]

/-- Roundtrip of the String blob encoding. -/
theorem decString_encString (s : String) (rest : List Nat) :
    decString (encString s ++ rest) = some (s, rest) := by
  obtain ⟨data⟩ := s
  simp [encString, decString, String.length, decChars_enc]

/-- Roundtrip of the Latlong blob encoding. -/
theorem decLatlong_encLatlong (p : Latlong) (rest : List Nat) :
    decLatlong (encLatlong p ++ rest) = some (p, rest) := by
  simp [encLatlong, decLatlong, decInt_encInt]

/-- Roundtrip of the first decoding stage of a Msg blob. -/
theorem decMsgStage1_enc (m : Msg) (rest : List Nat) :
    decMsgStage1 (encString m.type ++ (encInt m.subType ++ (encString m.icao24 ++
        (encInt m.generatedTimestampUTC ++ (encInt m.loggedTimestampUTC ++
        (encString m.callsign ++ rest))))))
      = some ({ Msg.zero with
                  type := m.type
                  subType := m.subType
                  icao24 := m.icao24
                  generatedTimestampUTC := m.generatedTimestampUTC
                  loggedTimestampUTC := m.loggedTimestampUTC
                  callsign := m.callsign }, rest) := by
  simp [decMsgStage1, decString_encString, decInt_encInt]

/-- Roundtrip of the second decoding stage of a Msg blob. -/
theorem decMsgStage2_enc (m0 m : Msg) (rest : List Nat) :
    decMsgStage2 m0 (encInt m.altitude ++ (encInt m.groundSpeed ++ (encInt m.track ++
        (encLatlong m.position ++ (encInt m.verticalRate ++
        (encString m.squawk ++ rest))))))
      = some ({ m0 with
                  altitude := m.altitude
                  groundSpeed := m.groundSpeed
                  track := m.track
                  position := m.position
                  verticalRate := m.verticalRate
                  squawk := m.squawk }, rest) := by
  simp [decMsgStage2, decString_encString, decInt_encInt, decLatlong_encLatlong]

/-- Roundtrip of the third decoding stage of a Msg blob. -/
theorem decMsgStage3_enc (m0 m : Msg) (rest : List Nat) :
    decMsgStage3 m0 (encBool m.alertSquawkChange ++ (encBool m.emergency ++
        (encBool m.spi ++ (encBool m.isOnGround ++ (encInt m.numStations ++ rest)))))
      = some ({ m0 with
                  alertSquawkChange := m.alertSquawkChange
                  emergency := m.emergency
                  spi := m.spi
                  isOnGround := m.isOnGround
                  numStations := m.numStations }, rest) := by
  simp [decMsgStage3, decBool_encBool, decInt_encInt]

/-- Roundtrip of the Msg blob encoding: decoding restores the gob-wire
projection — exported fields intact, presence flags false. -/
theorem decMsg_encMsg (m : Msg) (rest : List Nat) :
    decMsg (encMsg m ++ rest) = some (gobWireMsg m, rest) := by
  simp only [decMsg, encMsg, List.append_assoc, decMsgStage1_enc, Option.bind_eq_bind,
    Option.some_bind, decMsgStage2_enc, decMsgStage3_enc, gobWireMsg]
  cases m
  rfl

/-- Roundtrip of the CompositeMsg blob encoding, to the gob-wire
projection. -/
theorem decCompositeMsg_enc (c : CompositeMsg) (rest : List Nat) :
    decCompositeMsg (encCompositeMsg c ++ rest) = some (gobWire c, rest) := by
  simp [decCompositeMsg, encCompositeMsg, decMsg_encMsg, decString_encString, gobWire]

/-- Roundtrip of a counted batch of CompositeMsg blobs, to the gob-wire
projections in order. -/
theorem decCompositeMsgs_enc (msgs : List CompositeMsg) (rest : List Nat) :
    decCompositeMsgs msgs.length ((msgs.map encCompositeMsg).flatten ++ rest)
      = some (msgs.map gobWire, rest) := by
  induction msgs with
  | nil => simp [decCompositeMsgs]
  | cons c cs ih => simp [decCompositeMsgs, decCompositeMsg_enc, ih]

/-- Roundtrip of the whole batch blob: decoding always succeeds and yields
the gob-wire projection of every message, in the original order. -/
theorem base64_roundtrip_gob (msgs : List CompositeMsg) :
    Base64DecodeMessages (Base64EncodeMessages msgs) = some (msgs.map gobWire) := by
  have h := decCompositeMsgs_enc msgs []
  simp only [List.append_nil] at h
  simp [Base64EncodeMessages, Base64DecodeMessages, h]

/-- C8 (counterexample): the claim as stated is false on the code — a
batch holding one composite whose position flag is set, as every emitted
composite's is, decodes to a batch that is not equal to the original,
gob having dropped the unexported presence flags. -/
theorem claim_C8_counterexample :
    Base64DecodeMessages (Base64EncodeMessages [Fixtures.pendingComposite])
      ≠ some [Fixtures.pendingComposite] := by
  rw [base64_roundtrip_gob]
  decide

/-- C8 (amended): encoding a batch and decoding the result succeeds and
yields a batch of the same length and order in which every message keeps
all its exported fields — receiver name, type, subtype, identifier,
timestamps, callsign, altitude, ground speed, track, position, vertical
rate, squawk, the four status booleans and the station count — while the
seven unexported presence flags come back false, gob not carrying
unexported fields across the wire. -/
theorem claim_C8_amended (msgs : List CompositeMsg) :
    Base64DecodeMessages (Base64EncodeMessages msgs) = some (msgs.map gobWire) ∧
    ∀ c : CompositeMsg,
      (gobWire c).receiverName = c.receiverName ∧
      (gobWire c).msg.type = c.msg.type ∧
      (gobWire c).msg.subType = c.msg.subType ∧
      (gobWire c).msg.icao24 = c.msg.icao24 ∧
      (gobWire c).msg.generatedTimestampUTC = c.msg.generatedTimestampUTC ∧
      (gobWire c).msg.loggedTimestampUTC = c.msg.loggedTimestampUTC ∧
      (gobWire c).msg.callsign = c.msg.callsign ∧
      (gobWire c).msg.altitude = c.msg.altitude ∧
      (gobWire c).msg.groundSpeed = c.msg.groundSpeed ∧
      (gobWire c).msg.track = c.msg.track ∧
      (gobWire c).msg.position = c.msg.position ∧
      (gobWire c).msg.verticalRate = c.msg.verticalRate ∧
      (gobWire c).msg.squawk = c.msg.squawk ∧
      (gobWire c).msg.alertSquawkChange = c.msg.alertSquawkChange ∧
      (gobWire c).msg.emergency = c.msg.emergency ∧
      (gobWire c).msg.spi = c.msg.spi ∧
      (gobWire c).msg.isOnGround = c.msg.isOnGround ∧
      (gobWire c).msg.numStations = c.msg.numStations ∧
      (gobWire c).msg.hasPosition = false ∧
      (gobWire c).msg.hasCallsign = false ∧
      (gobWire c).msg.hasSquawk = false ∧
      (gobWire c).msg.hasAltitude = false ∧
      (gobWire c).msg.hasGroundSpeed = false ∧
      (gobWire c).msg.hasTrack = false ∧
      (gobWire c).msg.hasVerticalRate = false := by
  refine ⟨base64_roundtrip_gob msgs, fun c => ?_⟩
  simp [gobWire, gobWireMsg]

/-- RemoveTracks skips over a leading entry whose key is not scheduled for
removal. -/
theorem removeTracks_cons_not_mem (tracks : List (String × Track)) (k : String)
    (v : Track) (icaos : List String) (h : k ∉ icaos) :
    removeTracks ((k, v) :: tracks) icaos
      = ((k, v) :: (removeTracks tracks icaos).1, (removeTracks tracks icaos).2) := by
  induction icaos generalizing tracks with
  | nil => simp [removeTracks]
  | cons i rest ih =>
    have hki : ¬(k = i) := fun he => h (by simp [he])
    have hkr : k ∉ rest := fun hm => h (by simp [hm])
    simp [removeTracks, lookupTrack, eraseTrack, hki, fun he : i = k => hki he.symm,
      ih _ hkr]

/-- RemoveTracks driven by the keys of a filter pass splits the track map
into the kept and the removed tracks. -/
theorem removeTracks_filter (tracks : List (String × Track))
    (P : String × Track → Bool)
    (hnd : (tracks.map (fun p => p.1)).Nodup) :
    removeTracks tracks ((tracks.filter P).map (fun p => p.1))
      = (tracks.filter (fun p => !P p), (tracks.filter P).map (fun p => p.2)) := by
  induction tracks with
  | nil => simp [removeTracks]
  | cons p rest ih =>
    obtain ⟨k, v⟩ := p
    have hk : k ∉ rest.map (fun q => q.1) := (List.nodup_cons.mp hnd).1
    have hnd' : (rest.map (fun q => q.1)).Nodup := (List.nodup_cons.mp hnd).2
    by_cases hp : P (k, v)
    · simp [List.filter_cons, hp, removeTracks, lookupTrack, eraseTrack, ih hnd']
    · have hnotin : k ∉ (rest.filter P).map (fun q => q.1) := by
        intro hmem
        apply hk
        obtain ⟨q, hq, he⟩ := List.mem_map.mp hmem
        exact List.mem_map.mpr ⟨q, List.mem_of_mem_filter hq, he⟩
      simp [List.filter_cons, hp, removeTracks_cons_not_mem _ _ _ _ hnotin, ih hnd']

/-- C4: TrackBuffer.Flush returns untouched within one second of the last
flush; otherwise it removes exactly the tracks strictly older than
max-age — a track's age being the elapsed time since the generation
timestamp of its first-appended message — and delivers each removed track
as its own batch, sorted ascending by generation timestamp, each batch
holding a single identifier's composites. -/
theorem claim_C4 (tb : TrackBuffer) (now : Int) (hwf : TrackBufferWF tb) :
    (now - tb.lastFlush < second → Flush tb now = (tb, [])) ∧
    (¬(now - tb.lastFlush < second) →
      (Flush tb now).1.tracks
          = tb.tracks.filter (fun p => !(trackAge p.2 now > tb.maxAge)) ∧
      (Flush tb now).1.lastFlush = now ∧
      (Flush tb now).2
          = (tb.tracks.filter (fun p => trackAge p.2 now > tb.maxAge)).map
              (fun p => sortByTimeAsc p.2.messages)) ∧
    (∀ p ∈ tb.tracks, ∀ c rest, p.2.messages = c :: rest →
        trackAge p.2 now = now - c.msg.generatedTimestampUTC) ∧
    (∀ b ∈ (Flush tb now).2,
        List.Sorted (fun x y => x.msg.generatedTimestampUTC ≤ y.msg.generatedTimestampUTC) b ∧
        ∀ x ∈ b, ∀ y ∈ b, x.msg.icao24 = y.msg.icao24) := by
  have hremove := removeTracks_filter tb.tracks
    (fun p => trackAge p.2 now > tb.maxAge) hwf.1
  refine ⟨?_, ?_, ?_, ?_⟩
  · intro hgate
    simp [Flush, hgate]
  · intro hgate
    refine ⟨?_, ?_, ?_⟩ <;> simp [Flush, hgate, hremove]
  · intro p hp c rest hc
    simp [trackAge, hc]
  · intro b hb
    by_cases hgate : now - tb.lastFlush < second
    · simp [Flush, hgate] at hb
    · simp only [Flush, hgate, if_neg, ite_false, hremove] at hb
      simp only [List.map_map, List.mem_map] at hb
      obtain ⟨p, hpmem, hpb⟩ := hb
      have hperm : (sortByTimeAsc p.2.messages).Perm p.2.messages :=
        List.perm_insertionSort _ _
      constructor
      · subst hpb
        haveI htot : IsTotal CompositeMsg
            (fun x y => x.msg.generatedTimestampUTC ≤ y.msg.generatedTimestampUTC) :=
          ⟨fun x y => le_total _ _⟩
        haveI htrans : IsTrans CompositeMsg
            (fun x y => x.msg.generatedTimestampUTC ≤ y.msg.generatedTimestampUTC) :=
          ⟨fun x y z hxy hyz => le_trans hxy hyz⟩
        exact List.sorted_insertionSort _ _
      · intro x hx y hy
        subst hpb
        have hx' : x ∈ p.2.messages := hperm.mem_iff.mp hx
        have hy' : y ∈ p.2.messages := hperm.mem_iff.mp hy
        have hall := (hwf.2 p (List.mem_of_mem_filter hpmem)).2
        rw [hall x hx', hall y hy']

/-- Witness for C4: a track buffer holding one over-age single-message
track, flushed past the rate limit, delivers exactly the batches the
filter predicts. -/
theorem claim_C4_witness :
    (Flush Fixtures.tbOneTrack (4 * second)).2
      = (Fixtures.tbOneTrack.tracks.filter
          (fun p => trackAge p.2 (4 * second) > Fixtures.tbOneTrack.maxAge)).map
          (fun p => sortByTimeAsc p.2.messages) :=
  ((claim_C4 Fixtures.tbOneTrack (4 * second)
      (by unfold TrackBufferWF; decide)).2.1 (by decide)).2.2
